import Mathlib

/-!
# Verification of the gemma.cpp interactive session driver (`run.cc`)

This file gives a shallow embedding of the session/generation-loop state
machine of `run.cc` (`ReplGemma` and its `stream_token` callback) and proves
properties of the embedded code.

Modelling decisions:
* The external collaborators (tokenizer encode/decode, `GenerateGemma`, the
  OS entropy source) are parameters of the embedded functions.  Tokenizer
  calls return `Option` values: `none` models a failed call, which `run.cc`
  turns into a fatal `HWY_ASSERT` abort; in the embedding an aborting run is
  one that returns `none` at the component level and the termination reason
  `fatalAbort` at the loop level.
* `GenerateGemma` is an oracle `generate : List Int → Nat → Nat → List Int × Nat`
  mapping (prompt tokens, starting absolute position, RNG state) to the list
  of tokens it streams to the callback and the RNG state after generation.
  The real generator echoes the prompt tokens to the callback during prefill
  before emitting generated tokens; the oracle's output list covers both.
* The `std::mt19937` RNG is modelled by its state as a `Nat`; `gen.seed(s)`
  sets that state to `s`.  Only seeding behaviour matters to the claims.
* Console output is modelled as a trace of events (`Ev`), one per atomic
  `<<`-group the code writes; equal traces give byte-identical console
  output.  Wall-clock timing diagnostics (the tokens/sec figure) are
  abstracted away, as real time is outside the embedding.
-/

namespace Gcpp

/-- Model variants, from `ModelTraining` in the repository headers: the code
only distinguishes `GEMMA_IT` (instruction-tuned) from the rest
(pretrained). -/
inductive ModelTraining where
  | GEMMA_IT : ModelTraining
  | GEMMA_PT : ModelTraining
deriving DecidableEq

/-- Modelled from the spec: `gcpp::EOS_ID`, the end-of-sequence marker token
id, is declared in `gemma.h`, which is not part of the visible source; the
spec only calls it "the end-of-sequence marker".  Its concrete value is
irrelevant to every claim; we fix an arbitrary one. -/
def EOS_ID : Int := 1

/-- The subset of `InferenceArgs` that `ReplGemma` reads. -/
structure InferenceArgs where
  max_tokens : Nat
  multiturn : Bool
  deterministic : Bool
deriving DecidableEq

/-- The mutable state captured by reference in the `stream_token` lambda:
`abs_pos`, `current_pos`, `prompt_size` and the RNG `gen`. -/
structure StreamState where
  abs_pos : Nat
  current_pos : Nat
  prompt_size : Nat
  gen : Nat
deriving DecidableEq

/-- One atomic console-output event of `ReplGemma`, plus the (observable)
invocation of the external generator.  Equal event traces mean
byte-identical console output. -/
inductive Ev where
  | promptCursor : Ev                          -- `"> "` (verbosity ≥ 1)
  | readingPrompt : Ev                         -- `"[ Reading prompt ] "` (stderr)
  | genCall (prompt : List Int) (pos : Nat) : Ev  -- call of `GenerateGemma`
  | dot : Ev                                   -- `"."` prefill progress (stderr)
  | endMarker : Ev                             -- `"\n[ End ]"` (verbosity ≥ 2)
  | respSep : Ev                               -- `"\n\n"` before first response token
  | text (s : String) : Ev                     -- decoded token text
  | stats (cur tot : Nat) : Ev                 -- per-turn token counts (verbosity ≥ 2)
  | turnSep : Ev                               -- trailing `"\n\n"` after a turn
  | maxMsg (m : Nat) : Ev                      -- the `max_tokens exceeded` message
deriving DecidableEq

/-- `token_text.erase(0, token_text.find_first_not_of(" \t\n"))`: strip the
leading run of spaces, tabs and newlines (everything, if the string is all
whitespace). -/
def stripLeadingWs (s : String) : String :=
  s.dropWhile (fun c => c == ' ' || c == '\t' || c == '\n')

/-- The `stream_token` callback of `ReplGemma` (run.cc lines 107-139), as a
state transformer.  Returns the updated captured state and the events
written, or `none` when the `HWY_ASSERT` on `Decode` fails (fatal abort). -/
def stream_token (args : InferenceArgs) (verbosity : Nat)
    (decode : Int → Option String) (st : StreamState) (token : Int) :
    Option (StreamState × List Ev) :=
  let st1 : StreamState :=
    { st with abs_pos := st.abs_pos + 1, current_pos := st.current_pos + 1 }
  if st1.current_pos < st1.prompt_size then
    some (st1, [Ev.dot])
  else if token = EOS_ID then
    let st2 : StreamState :=
      if !args.multiturn then
        { st1 with abs_pos := 0,
                   gen := if args.deterministic then 42 else st1.gen }
      else st1
    some (st2, if verbosity ≥ 2 then [Ev.endMarker] else [])
  else
    match decode token with
    | none => none
    | some token_text =>
      if st1.current_pos = st1.prompt_size + 1 then
        some (st1, (if verbosity ≥ 1 then [Ev.respSep] else [])
          ++ [Ev.text (stripLeadingWs token_text)])
      else
        some (st1, [Ev.text token_text])

/-- Fold `stream_token` over the token list the generator feeds it;
`none` when any call hits the fatal decode assertion. -/
def streamTokens (args : InferenceArgs) (verbosity : Nat)
    (decode : Int → Option String) :
    StreamState → List Int → Option (StreamState × List Ev)
  | st, [] => some (st, [])
  | st, t :: ts =>
    match stream_token args verbosity decode st t with
    | none => none
    | some (st1, evs) =>
      match streamTokens args verbosity decode st1 ts with
      | none => none
      | some (st2, evs2) => some (st2, evs ++ evs2)

/-- The prompt templating of run.cc lines 162-171: instruction-tuned models
get turn control tokens, with an extra `"<end_of_turn>\n"` closing the
previous model turn when `abs_pos > 0`; other variants are untouched. -/
def templatePrompt (training : ModelTraining) (abs_pos : Nat)
    (prompt_string : String) : String :=
  if training = ModelTraining.GEMMA_IT then
    let s := "<start_of_turn>user\n" ++ prompt_string
      ++ "<end_of_turn>\n<start_of_turn>model\n"
    if abs_pos > 0 then "<end_of_turn>\n" ++ s else s
  else prompt_string

/-- Templating plus encoding plus the BOS rule of run.cc lines 173-179:
encode the templated text (`none` = failed `Encode`, fatal abort) and, when
`abs_pos == 0`, insert the `<bos>` token (id 2) at the front. -/
def buildPrompt (training : ModelTraining) (abs_pos : Nat)
    (encode : String → Option (List Int)) (prompt_string : String) :
    Option (List Int) :=
  match encode (templatePrompt training abs_pos prompt_string) with
  | none => none
  | some prompt => some (if abs_pos = 0 then 2 :: prompt else prompt)

/-- Result of one non-command turn of the loop body. -/
structure TurnOut where
  abs_pos : Nat
  gen : Nat
  current_pos : Nat
  prompt_size : Nat
  evs : List Ev
deriving DecidableEq

/-- One non-command iteration of the `while` body (run.cc lines 162-195):
build and encode the prompt, snapshot `prompt_size`, call the generator,
stream its tokens through the callback, then print per-turn diagnostics.
`none` models a fatal `HWY_ASSERT` abort (failed encode or decode). -/
def runTurn (training : ModelTraining) (args : InferenceArgs)
    (verbosity : Nat) (encode : String → Option (List Int))
    (decode : Int → Option String)
    (generate : List Int → Nat → Nat → List Int × Nat)
    (abs_pos gen : Nat) (prompt_string : String) : Option TurnOut :=
  match buildPrompt training abs_pos encode prompt_string with
  | none => none
  | some prompt =>
    let prompt_size := prompt.length
    let g := generate prompt abs_pos gen
    match streamTokens args verbosity decode
        { abs_pos := abs_pos, current_pos := 0,
          prompt_size := prompt_size, gen := g.2 } g.1 with
    | none => none
    | some (st, evs) =>
      some { abs_pos := st.abs_pos, gen := st.gen,
             current_pos := st.current_pos, prompt_size := st.prompt_size,
             evs := [Ev.readingPrompt, Ev.genCall prompt abs_pos] ++ evs
               ++ (if verbosity ≥ 2 then [Ev.stats st.current_pos st.abs_pos]
                   else [])
               ++ [Ev.turnSep] }

/-- Why the loop stopped. -/
inductive TermReason where
  | inputEnd : TermReason        -- `std::cin.fail()` (input stream exhausted)
  | quitCmd : TermReason         -- `%q` / `%Q`
  | budgetExceeded : TermReason  -- `abs_pos < max_tokens` failed
  | fatalAbort : TermReason      -- `HWY_ASSERT` fired
deriving DecidableEq

/-- The `"> "` cursor, printed when verbosity ≥ 1 before each read. -/
def cursorEvs (verbosity : Nat) : List Ev :=
  if verbosity ≥ 1 then [Ev.promptCursor] else []

/-- The `while (abs_pos < args.max_tokens)` loop of `ReplGemma`
(run.cc lines 141-200), driven by the finite list of console input lines;
when the list is exhausted `getline` fails and the loop returns.  Produces
the event trace and the reason the loop stopped. -/
def replLoop (training : ModelTraining) (args : InferenceArgs)
    (verbosity : Nat) (encode : String → Option (List Int))
    (decode : Int → Option String)
    (generate : List Int → Nat → Nat → List Int × Nat) :
    Nat → Nat → List String → List Ev × TermReason
  | abs_pos, _, [] =>
    if abs_pos < args.max_tokens then (cursorEvs verbosity, TermReason.inputEnd)
    else ([Ev.maxMsg args.max_tokens], TermReason.budgetExceeded)
  | abs_pos, gen, line :: rest =>
    if abs_pos < args.max_tokens then
      if line = "%q" ∨ line = "%Q" then (cursorEvs verbosity, TermReason.quitCmd)
      else if line = "%c" ∨ line = "%C" then
        let r := replLoop training args verbosity encode decode generate 0 gen rest
        (cursorEvs verbosity ++ r.1, r.2)
      else
        match runTurn training args verbosity encode decode generate
            abs_pos gen line with
        | none => (cursorEvs verbosity, TermReason.fatalAbort)
        | some t =>
          let r := replLoop training args verbosity encode decode generate
            t.abs_pos t.gen rest
          (cursorEvs verbosity ++ t.evs ++ r.1, r.2)
    else ([Ev.maxMsg args.max_tokens], TermReason.budgetExceeded)

/-- RNG initialization (run.cc lines 98-104): fixed seed 42 when
`deterministic`, otherwise a value from `std::random_device` (the `entropy`
parameter). -/
def initGen (args : InferenceArgs) (entropy : Nat) : Nat :=
  if args.deterministic then 42 else entropy

/-- `ReplGemma`: initialize `abs_pos = 0` and the RNG, then run the loop. -/
def ReplGemma (training : ModelTraining) (args : InferenceArgs)
    (verbosity : Nat) (encode : String → Option (List Int))
    (decode : Int → Option String)
    (generate : List Int → Nat → Nat → List Int × Nat)
    (entropy : Nat) (inputs : List String) : List Ev × TermReason :=
  replLoop training args verbosity encode decode generate 0
    (initGen args entropy) inputs

/-- The prompts passed to the generator, in order, as read off a trace. -/
def genCallPrompts : List Ev → List (List Int)
  | [] => []
  | Ev.genCall p _ :: rest => p :: genCallPrompts rest
  | _ :: rest => genCallPrompts rest

/-- The starting absolute positions passed to the generator, in order. -/
def genCallPositions : List Ev → List Nat
  | [] => []
  | Ev.genCall _ p :: rest => p :: genCallPositions rest
  | _ :: rest => genCallPositions rest

/-! ## Concrete instantiations of the external collaborators, used in
counterexamples and witnesses. -/

/-- A total encoder mapping every string to the single token 100. -/
def enc0 : String → Option (List Int) := fun _ => some [100]

/-- An always-failing encoder. -/
def encNone : String → Option (List Int) := fun _ => none

/-- A total decoder mapping every token to `"x"`. -/
def dec0 : Int → Option String := fun _ => some "x"

/-- An always-failing decoder. -/
def decNone : Int → Option String := fun _ => none

/-- A generator that echoes the prompt to the callback (prefill) and then
emits a single end-of-sequence token, leaving the RNG state unchanged. -/
def genEcho : List Int → Nat → Nat → List Int × Nat :=
  fun p _ g => (p ++ [EOS_ID], g)

/-- A generator that echoes the prompt and then emits three ordinary tokens
followed by end-of-sequence. -/
def genFour : List Int → Nat → Nat → List Int × Nat :=
  fun p _ g => (p ++ [30, 40, 50, EOS_ID], g)

/-- Arguments: large budget, single-turn (non-multiturn), non-deterministic. -/
def argsA : InferenceArgs := { max_tokens := 100, multiturn := false, deterministic := false }

/-- Arguments: large budget, multiturn, non-deterministic. -/
def argsMT : InferenceArgs := { max_tokens := 10, multiturn := true, deterministic := false }

/-- Arguments: large budget, single-turn, deterministic. -/
def argsDet : InferenceArgs := { max_tokens := 100, multiturn := false, deterministic := true }

/-- Arguments: token budget 5, multiturn, non-deterministic. -/
def argsMax5 : InferenceArgs := { max_tokens := 5, multiturn := true, deterministic := false }

/-! ## Claim C1 -/

/-- Claim C1, counterexample.  The claim says the beginning-of-sequence
token is inserted "exactly once per session ... never inserted again on any
later turn of the same session".  In a non-multiturn session the
end-of-sequence handler resets `abs_pos` to 0, so the next turn again
satisfies `abs_pos == 0` and run.cc line 178 inserts BOS again: in this
two-turn session both generator calls receive a prompt starting with the
BOS token 2, although the encoder itself never produces token 2. -/
theorem C1_bos_reinserted_counterexample :
    genCallPrompts
        (ReplGemma ModelTraining.GEMMA_PT argsA 0 enc0 dec0 genEcho 0
          ["a", "b"]).1
      = [[2, 100], [2, 100]] ∧ enc0 "a" = some [100] := by
  constructor <;> rfl

/-- Claim C1, amended: the BOS token 2 is prepended to the encoded prompt
exactly on turns that start with `abs_pos == 0` — once at the start of the
session, but again whenever `abs_pos` has been reset to 0 (end-of-sequence
in non-multiturn mode, or the `%c` command); on turns starting with
`abs_pos ≠ 0` the encoded prompt is passed through unchanged. -/
theorem C1_bos_iff_abs_pos_zero (training : ModelTraining) (abs_pos : Nat)
    (encode : String → Option (List Int)) (s : String) :
    (abs_pos = 0 → buildPrompt training abs_pos encode s
        = (encode (templatePrompt training abs_pos s)).map (fun l => 2 :: l)) ∧
    (abs_pos ≠ 0 → buildPrompt training abs_pos encode s
        = encode (templatePrompt training abs_pos s)) := by
  constructor <;> intro h
  · subst h
    cases he : encode (templatePrompt training 0 s) <;> simp [buildPrompt, he]
  · cases he : encode (templatePrompt training abs_pos s) <;>
      simp [buildPrompt, he, h]

/-- Witness for `C1_bos_iff_abs_pos_zero` at `abs_pos = 0` and
`abs_pos = 3`. -/
theorem C1_bos_iff_abs_pos_zero_witness :
    buildPrompt ModelTraining.GEMMA_PT 0 enc0 "a"
        = (enc0 (templatePrompt ModelTraining.GEMMA_PT 0 "a")).map
            (fun l => 2 :: l) ∧
    buildPrompt ModelTraining.GEMMA_PT 3 enc0 "a"
        = enc0 (templatePrompt ModelTraining.GEMMA_PT 3 "a") :=
  ⟨(C1_bos_iff_abs_pos_zero ModelTraining.GEMMA_PT 0 enc0 "a").1 rfl,
   (C1_bos_iff_abs_pos_zero ModelTraining.GEMMA_PT 3 enc0 "a").2 (by decide)⟩

/-! ## Claim C5 -/

/-- Claim C5: under the instruction-tuned variant the raw text is wrapped as
`"<start_of_turn>user\n" + text + "<end_of_turn>\n<start_of_turn>model\n"`,
with an additional `"<end_of_turn>\n"` prepended exactly when the turn
starts with `abs_pos > 0`; the pretrained variant gets no wrapping. -/
theorem C5_prompt_wrapping (abs_pos : Nat) (s : String) :
    (templatePrompt ModelTraining.GEMMA_IT 0 s
      = "<start_of_turn>user\n" ++ s
          ++ "<end_of_turn>\n<start_of_turn>model\n") ∧
    (0 < abs_pos → templatePrompt ModelTraining.GEMMA_IT abs_pos s
      = "<end_of_turn>\n" ++ ("<start_of_turn>user\n" ++ s
          ++ "<end_of_turn>\n<start_of_turn>model\n")) ∧
    (templatePrompt ModelTraining.GEMMA_PT abs_pos s = s) := by
  refine ⟨by simp [templatePrompt], fun h => by simp [templatePrompt, h],
    by simp [templatePrompt]⟩

/-- Witness for `C5_prompt_wrapping` at `abs_pos = 1`, `s = "hi"`. -/
theorem C5_prompt_wrapping_witness :
    templatePrompt ModelTraining.GEMMA_IT 0 "hi"
        = "<start_of_turn>user\n" ++ "hi"
            ++ "<end_of_turn>\n<start_of_turn>model\n" ∧
    templatePrompt ModelTraining.GEMMA_IT 1 "hi"
        = "<end_of_turn>\n" ++ ("<start_of_turn>user\n" ++ "hi"
            ++ "<end_of_turn>\n<start_of_turn>model\n") ∧
    templatePrompt ModelTraining.GEMMA_PT 1 "hi" = "hi" :=
  ⟨(C5_prompt_wrapping 1 "hi").1, (C5_prompt_wrapping 1 "hi").2.1 (by decide),
   (C5_prompt_wrapping 1 "hi").2.2⟩

/-! ## Claim C6 -/

/-- Claim C6: with `deterministic = true` the RNG is seeded with the fixed
constant 42 (whatever the entropy source would have supplied), and two runs
of the session with identical configuration and input lines — but possibly
different OS entropy — produce identical event traces, hence byte-identical
console output.  (The tokens/sec wall-clock diagnostic is outside the
embedding.) -/
theorem C6_deterministic_reproducibility (training : ModelTraining)
    (args : InferenceArgs) (verbosity : Nat)
    (encode : String → Option (List Int)) (decode : Int → Option String)
    (generate : List Int → Nat → Nat → List Int × Nat)
    (e1 e2 : Nat) (inputs : List String) (h : args.deterministic = true) :
    initGen args e1 = 42 ∧
    ReplGemma training args verbosity encode decode generate e1 inputs
      = ReplGemma training args verbosity encode decode generate e2 inputs := by
  constructor
  · simp [initGen, h]
  · simp [ReplGemma, initGen, h]

/-- Witness for `C6_deterministic_reproducibility` with entropy values 17
and 999. -/
theorem C6_deterministic_reproducibility_witness :
    initGen argsDet 17 = 42 ∧
    ReplGemma ModelTraining.GEMMA_PT argsDet 0 enc0 dec0 genEcho 17 ["a"]
      = ReplGemma ModelTraining.GEMMA_PT argsDet 0 enc0 dec0 genEcho 999
          ["a"] :=
  C6_deterministic_reproducibility ModelTraining.GEMMA_PT argsDet 0 enc0 dec0
    genEcho 17 999 ["a"] rfl

/-! ## Claim C2 -/

/-- Claim C2, counterexample.  The claim says `abs_pos` never exceeds the
configured maximum at any point.  But the loop condition is only checked
between turns: nothing inside `stream_token` bounds `abs_pos`, so a turn
that streams 6 tokens against a budget of 5 drives `abs_pos` to 6, as shown
by the per-turn diagnostic event `stats current_pos abs_pos` reporting 6
total tokens.  The rest of the scenario does hold: the generator is called
exactly once and the loop then stops with the budget message. -/
theorem C2_abs_pos_overshoot_counterexample :
    argsMax5.max_tokens = 5 ∧
    Ev.stats 6 6
        ∈ (ReplGemma ModelTraining.GEMMA_PT argsMax5 2 enc0 dec0 genFour 0
            ["hi", "again"]).1 ∧
    genCallPrompts
        (ReplGemma ModelTraining.GEMMA_PT argsMax5 2 enc0 dec0 genFour 0
          ["hi", "again"]).1 = [[2, 100]] ∧
    (ReplGemma ModelTraining.GEMMA_PT argsMax5 2 enc0 dec0 genFour 0
        ["hi", "again"]).2 = TermReason.budgetExceeded := by
  refine ⟨rfl, ?_, rfl, rfl⟩
  decide

/-- Claim C2, amended: `abs_pos` may exceed the configured maximum inside a
turn, because the budget is only checked by the `while` condition between
turns; but as soon as a turn completes with `abs_pos ≥ max_tokens`, the loop
terminates immediately with the informational `max_tokens` message and
nothing else — in particular the generator is never invoked again. -/
theorem C2_budget_stops_loop (training : ModelTraining) (args : InferenceArgs)
    (verbosity : Nat) (encode : String → Option (List Int))
    (decode : Int → Option String)
    (generate : List Int → Nat → Nat → List Int × Nat)
    (abs_pos gen : Nat) (inputs : List String)
    (h : args.max_tokens ≤ abs_pos) :
    replLoop training args verbosity encode decode generate abs_pos gen inputs
      = ([Ev.maxMsg args.max_tokens], TermReason.budgetExceeded) ∧
    genCallPrompts
        (replLoop training args verbosity encode decode generate abs_pos gen
          inputs).1 = [] := by
  have hmain : replLoop training args verbosity encode decode generate abs_pos
      gen inputs = ([Ev.maxMsg args.max_tokens], TermReason.budgetExceeded) := by
    cases inputs <;> simp [replLoop, Nat.not_lt.mpr h]
  exact ⟨hmain, by rw [hmain]; rfl⟩

/-- Witness for `C2_budget_stops_loop`: after the first turn of the
counterexample session `abs_pos = 6 ≥ 5`, and the remaining loop emits only
the budget message. -/
theorem C2_budget_stops_loop_witness :
    replLoop ModelTraining.GEMMA_PT argsMax5 2 enc0 dec0 genFour 6 0 ["again"]
      = ([Ev.maxMsg argsMax5.max_tokens], TermReason.budgetExceeded) ∧
    genCallPrompts
        (replLoop ModelTraining.GEMMA_PT argsMax5 2 enc0 dec0 genFour 6 0
          ["again"]).1 = [] :=
  C2_budget_stops_loop ModelTraining.GEMMA_PT argsMax5 2 enc0 dec0 genFour 6 0
    ["again"] (by decide)

/-! ## Claim C3 -/

/-- Claim C3, counterexample.  The claim says every invocation with
`current_pos ≤ prompt_size` (after the increments) emits only a progress
indicator.  The code's test (run.cc line 112) is strict: at
`current_pos == prompt_size` the token falls through to the decode branch,
so with `prompt_size = 2` and incremented `current_pos = 2` the callback
decodes and emits text rather than the progress dot. -/
theorem C3_boundary_counterexample :
    stream_token argsMT 0 dec0
        { abs_pos := 1, current_pos := 1, prompt_size := 2, gen := 0 } 100
      = some ({ abs_pos := 2, current_pos := 2, prompt_size := 2, gen := 0 },
          [Ev.text "x"]) := rfl

/-- Claim C3, amended: the prefill/echo progress indicator is emitted
exactly when `current_pos < prompt_size` strictly (after the increments);
when `current_pos ≥ prompt_size` the invocation never emits the indicator —
the token is handled as end-of-sequence or decoded and emitted (so the
final prompt position `current_pos == prompt_size` is already treated like
a response token). -/
theorem C3_prefill_dot_iff_strict (args : InferenceArgs) (verbosity : Nat)
    (decode : Int → Option String) (st : StreamState) (token : Int) :
    (st.current_pos + 1 < st.prompt_size →
      stream_token args verbosity decode st token
        = some ({ st with abs_pos := st.abs_pos + 1, current_pos := st.current_pos + 1 }, [Ev.dot])) ∧
    (st.prompt_size ≤ st.current_pos + 1 →
      ∀ st2 evs, stream_token args verbosity decode st token = some (st2, evs) →
        Ev.dot ∉ evs) := by
  constructor
  · intro h
    simp [stream_token, h]
  · intro h st2 evs hev
    unfold stream_token at hev
    rw [if_neg (Nat.not_lt.mpr h)] at hev
    split at hev
    · simp only [Option.some.injEq, Prod.mk.injEq] at hev
      obtain ⟨-, hevs⟩ := hev
      subst hevs
      split <;> simp
    · split at hev
      · simp at hev
      · split at hev
        · simp only [Option.some.injEq, Prod.mk.injEq] at hev
          obtain ⟨-, hevs⟩ := hev
          subst hevs
          split <;> simp
        · simp only [Option.some.injEq, Prod.mk.injEq] at hev
          obtain ⟨-, hevs⟩ := hev
          subst hevs
          simp

/-- Witness for `C3_prefill_dot_iff_strict`: a strictly-inside-prefill call
emits the dot, and the call of `C3_boundary_counterexample` (at the
boundary) contains no dot. -/
theorem C3_prefill_dot_iff_strict_witness :
    stream_token argsMT 0 dec0
        { abs_pos := 0, current_pos := 0, prompt_size := 2, gen := 0 } 100
      = some ({ abs_pos := 1, current_pos := 1, prompt_size := 2, gen := 0 },
          [Ev.dot]) ∧
    Ev.dot ∉ [Ev.text "x"] :=
  ⟨(C3_prefill_dot_iff_strict argsMT 0 dec0
      { abs_pos := 0, current_pos := 0, prompt_size := 2, gen := 0 } 100).1
      (by decide),
   (C3_prefill_dot_iff_strict argsMT 0 dec0
      { abs_pos := 1, current_pos := 1, prompt_size := 2, gen := 0 } 100).2
      (by decide)
      { abs_pos := 2, current_pos := 2, prompt_size := 2, gen := 0 }
      [Ev.text "x"] rfl⟩

/-! ## Claim C4 -/

/-- Claim C4, counterexample.  The claim quantifies over every callback
invocation whose token is the end-of-sequence marker; but the
end-of-sequence test (run.cc line 114) sits in the `else` of the prefill
branch, so an EOS-valued token arriving while `current_pos < prompt_size`
(a prompt token echoed during prefill) only prints the progress dot:
with `multiturn = false` and `deterministic = true`, `abs_pos` advances to
6 instead of resetting to 0, and the RNG stays 7 instead of 42. -/
theorem C4_eos_in_prefill_counterexample :
    stream_token argsDet 0 dec0
        { abs_pos := 5, current_pos := 0, prompt_size := 3, gen := 7 } EOS_ID
      = some ({ abs_pos := 6, current_pos := 1, prompt_size := 3, gen := 7 },
          [Ev.dot]) := rfl

/-- Claim C4, amended: for every callback invocation outside the prefill
phase (`prompt_size ≤ current_pos` after the increments) whose token equals
the end-of-sequence marker: with `multiturn = false`, `abs_pos` is reset to
0 and, when `deterministic` is also set, the RNG is reseeded to the fixed
seed 42 (otherwise left alone); with `multiturn = true` neither reset nor
reseed happens — `abs_pos` just advances by one and the RNG is untouched. -/
theorem C4_eos_reset_policy (args : InferenceArgs) (verbosity : Nat)
    (decode : Int → Option String) (st : StreamState)
    (h : st.prompt_size ≤ st.current_pos + 1) :
    (args.multiturn = false →
      stream_token args verbosity decode st EOS_ID
        = some ({ st with abs_pos := 0, current_pos := st.current_pos + 1, gen := if args.deterministic then 42 else st.gen },
            if verbosity ≥ 2 then [Ev.endMarker] else [])) ∧
    (args.multiturn = true →
      stream_token args verbosity decode st EOS_ID
        = some ({ st with abs_pos := st.abs_pos + 1, current_pos := st.current_pos + 1 },
            if verbosity ≥ 2 then [Ev.endMarker] else [])) := by
  constructor <;> intro hm <;> simp [stream_token, Nat.not_lt.mpr h, hm]

/-- Witness for `C4_eos_reset_policy`: a non-multiturn deterministic session
resets `abs_pos` and reseeds to 42; a multiturn session leaves the RNG at 7
and keeps counting. -/
theorem C4_eos_reset_policy_witness :
    stream_token argsDet 3 dec0
        { abs_pos := 9, current_pos := 4, prompt_size := 3, gen := 7 } EOS_ID
      = some ({ abs_pos := 0, current_pos := 5, prompt_size := 3, gen := 42 },
          [Ev.endMarker]) ∧
    stream_token argsMT 3 dec0
        { abs_pos := 9, current_pos := 4, prompt_size := 3, gen := 7 } EOS_ID
      = some ({ abs_pos := 10, current_pos := 5, prompt_size := 3, gen := 7 },
          [Ev.endMarker]) := by
  constructor
  · have := (C4_eos_reset_policy argsDet 3 dec0
        { abs_pos := 9, current_pos := 4, prompt_size := 3, gen := 7 }
        (by decide)).1 rfl
    simpa using this
  · have := (C4_eos_reset_policy argsMT 3 dec0
        { abs_pos := 9, current_pos := 4, prompt_size := 3, gen := 7 }
        (by decide)).2 rfl
    simpa using this

/-! ## Claim C7 -/

/-- Claim C7: reading `%c` (or `%C`) at the prompt resets `abs_pos` to 0
whatever its prior value and continues the loop in the awaiting-input state:
the remainder of the run is exactly the loop restarted on the remaining
input lines with `abs_pos = 0` and with every other piece of state — in
particular the RNG state `gen`, which is passed through unchanged and never
reseeded here — untouched, and nothing is printed beyond the prompt
cursor. -/
theorem C7_reset_command (training : ModelTraining) (args : InferenceArgs)
    (verbosity : Nat) (encode : String → Option (List Int))
    (decode : Int → Option String)
    (generate : List Int → Nat → Nat → List Int × Nat)
    (abs_pos gen : Nat) (rest : List String) (line : String)
    (h : abs_pos < args.max_tokens) (hl : line = "%c" ∨ line = "%C") :
    replLoop training args verbosity encode decode generate abs_pos gen
        (line :: rest)
      = (cursorEvs verbosity
          ++ (replLoop training args verbosity encode decode generate 0 gen
              rest).1,
         (replLoop training args verbosity encode decode generate 0 gen
            rest).2) := by
  rcases hl with hl | hl <;> subst hl <;> simp [replLoop, h]

/-- Witness for `C7_reset_command`: `%c` at `abs_pos = 7` restarts the loop
on the remaining input with `abs_pos = 0` and the RNG still at 5. -/
theorem C7_reset_command_witness :
    replLoop ModelTraining.GEMMA_PT argsA 0 enc0 dec0 genEcho 7 5
        ["%c", "a"]
      = (cursorEvs 0
          ++ (replLoop ModelTraining.GEMMA_PT argsA 0 enc0 dec0 genEcho 0 5
              ["a"]).1,
         (replLoop ModelTraining.GEMMA_PT argsA 0 enc0 dec0 genEcho 0 5
            ["a"]).2) :=
  C7_reset_command ModelTraining.GEMMA_PT argsA 0 enc0 dec0 genEcho 7 5 ["a"]
    "%c" (by decide) (Or.inl rfl)

/-! ## Claim C8 -/

/-- Claim C8: reading `%q` or `%Q` at the prompt, or hitting the end of the
console input stream, terminates the loop at once: the only event after
that point is the prompt cursor that preceded the read — no token text is
emitted and the generator is never called (the produced trace contains no
`genCall`). -/
theorem C8_quit_and_eof (training : ModelTraining) (args : InferenceArgs)
    (verbosity : Nat) (encode : String → Option (List Int))
    (decode : Int → Option String)
    (generate : List Int → Nat → Nat → List Int × Nat)
    (abs_pos gen : Nat) (rest : List String) (line : String)
    (h : abs_pos < args.max_tokens) :
    ((line = "%q" ∨ line = "%Q") →
      replLoop training args verbosity encode decode generate abs_pos gen
          (line :: rest)
        = (cursorEvs verbosity, TermReason.quitCmd)) ∧
    replLoop training args verbosity encode decode generate abs_pos gen []
      = (cursorEvs verbosity, TermReason.inputEnd) ∧
    genCallPrompts (cursorEvs verbosity) = [] := by
  refine ⟨fun hl => ?_, by simp [replLoop, h], ?_⟩
  · rcases hl with hl | hl <;> subst hl <;> simp [replLoop, h]
  · unfold cursorEvs
    split <;> rfl

/-- Witness for `C8_quit_and_eof`: `%q` with pending input lines stops the
loop with only the cursor printed, as does input exhaustion. -/
theorem C8_quit_and_eof_witness :
    replLoop ModelTraining.GEMMA_PT argsA 1 enc0 dec0 genEcho 3 5
        ["%q", "never"]
      = (cursorEvs 1, TermReason.quitCmd) ∧
    replLoop ModelTraining.GEMMA_PT argsA 1 enc0 dec0 genEcho 3 5 []
      = (cursorEvs 1, TermReason.inputEnd) ∧
    genCallPrompts (cursorEvs 1) = [] :=
  ⟨(C8_quit_and_eof ModelTraining.GEMMA_PT argsA 1 enc0 dec0 genEcho 3 5
      ["never"] "%q" (by decide)).1 (Or.inl rfl),
   (C8_quit_and_eof ModelTraining.GEMMA_PT argsA 1 enc0 dec0 genEcho 3 5
      ["never"] "%q" (by decide)).2⟩

/-! ## Claim C9 -/

/-- A total decoder never makes `stream_token` hit the decode assertion. -/
theorem stream_token_isSome (args : InferenceArgs) (verbosity : Nat)
    (decode : Int → Option String)
    (hdec : ∀ t, (decode t).isSome = true)
    (st : StreamState) (token : Int) :
    (stream_token args verbosity decode st token).isSome = true := by
  unfold stream_token
  cases hd : decode token with
  | none => exact absurd (hdec token) (by simp [hd])
  | some s =>
    simp only [hd]
    split
    · rfl
    · split
      · rfl
      · split <;> rfl

/-- A total decoder never makes the callback fold abort. -/
theorem streamTokens_isSome (args : InferenceArgs) (verbosity : Nat)
    (decode : Int → Option String)
    (hdec : ∀ t, (decode t).isSome = true) :
    ∀ (tokens : List Int) (st : StreamState),
      (streamTokens args verbosity decode st tokens).isSome = true := by
  intro tokens
  induction tokens with
  | nil => intro st; rfl
  | cons t ts ih =>
    intro st
    have h1 := stream_token_isSome args verbosity decode hdec st t
    cases hs : stream_token args verbosity decode st t with
    | none => rw [hs] at h1; simp at h1
    | some p =>
      obtain ⟨st1, evs⟩ := p
      have h2 := ih st1
      cases hs2 : streamTokens args verbosity decode st1 ts with
      | none => rw [hs2] at h2; simp at h2
      | some q =>
        obtain ⟨st2, evs2⟩ := q
        simp [streamTokens, hs, hs2]

/-- A total encoder never makes `buildPrompt` abort. -/
theorem buildPrompt_isSome (training : ModelTraining) (abs_pos : Nat)
    (encode : String → Option (List Int)) (s : String)
    (henc : ∀ x, (encode x).isSome = true) :
    (buildPrompt training abs_pos encode s).isSome = true := by
  unfold buildPrompt
  cases he : encode (templatePrompt training abs_pos s) with
  | none =>
    have hh := henc (templatePrompt training abs_pos s)
    rw [he] at hh
    simp at hh
  | some p => simp

/-- A total tokenizer never makes a turn abort. -/
theorem runTurn_isSome (training : ModelTraining) (args : InferenceArgs)
    (verbosity : Nat) (encode : String → Option (List Int))
    (decode : Int → Option String)
    (generate : List Int → Nat → Nat → List Int × Nat)
    (henc : ∀ x, (encode x).isSome = true)
    (hdec : ∀ t, (decode t).isSome = true)
    (abs_pos gen : Nat) (line : String) :
    (runTurn training args verbosity encode decode generate abs_pos gen
      line).isSome = true := by
  unfold runTurn
  have hb := buildPrompt_isSome training abs_pos encode line henc
  cases hbp : buildPrompt training abs_pos encode line with
  | none => rw [hbp] at hb; simp at hb
  | some prompt =>
    have hst := streamTokens_isSome args verbosity decode hdec
      (generate prompt abs_pos gen).1
      { abs_pos := abs_pos, current_pos := 0, prompt_size := prompt.length,
        gen := (generate prompt abs_pos gen).2 }
    cases hss : streamTokens args verbosity decode
        { abs_pos := abs_pos, current_pos := 0, prompt_size := prompt.length,
          gen := (generate prompt abs_pos gen).2 }
        (generate prompt abs_pos gen).1 with
    | none => rw [hss] at hst; simp at hst
    | some p =>
      obtain ⟨st, evs⟩ := p
      simp [hss]

/-- A total tokenizer makes the fatal-abort exit of the loop unreachable. -/
theorem replLoop_no_abort (training : ModelTraining) (args : InferenceArgs)
    (verbosity : Nat) (encode : String → Option (List Int))
    (decode : Int → Option String)
    (generate : List Int → Nat → Nat → List Int × Nat)
    (henc : ∀ x, (encode x).isSome = true)
    (hdec : ∀ t, (decode t).isSome = true) :
    ∀ (inputs : List String) (abs_pos gen : Nat),
      (replLoop training args verbosity encode decode generate abs_pos gen
        inputs).2 ≠ TermReason.fatalAbort := by
  intro inputs
  induction inputs with
  | nil =>
    intro abs_pos gen
    unfold replLoop
    split <;> simp
  | cons line rest ih =>
    intro abs_pos gen
    unfold replLoop
    by_cases hb : abs_pos < args.max_tokens
    · rw [if_pos hb]
      by_cases hq : line = "%q" ∨ line = "%Q"
      · rw [if_pos hq]; simp
      · rw [if_neg hq]
        by_cases hc : line = "%c" ∨ line = "%C"
        · rw [if_pos hc]; exact ih 0 gen
        · rw [if_neg hc]
          have hrt := runTurn_isSome training args verbosity encode decode
            generate henc hdec abs_pos gen line
          cases hr : runTurn training args verbosity encode decode generate
              abs_pos gen line with
          | none => rw [hr] at hrt; simp at hrt
          | some t => simp only [hr]; exact ih t.abs_pos t.gen
    · rw [if_neg hb]; simp

/-- Claim C9: a tokenizer failure is fatal and never swallowed, and under a
total tokenizer the abort branch is unreachable.  Conjuncts: (1) if encode
and decode succeed on all inputs, no run of the loop ends in `fatalAbort`
(the `HWY_ASSERT` branches are unreachable); (2) a failed decode of a
non-EOS token outside the prefill branch aborts the callback (`none`
models the fatal `HWY_ASSERT`); (3) a failed encode aborts the turn before
generation; (4) a turn whose `runTurn` aborts makes the whole loop stop
with `fatalAbort` — the failure is not retried or masked. -/
theorem C9_tokenizer_failure_fatal (training : ModelTraining)
    (args : InferenceArgs) (verbosity : Nat)
    (encode : String → Option (List Int)) (decode : Int → Option String)
    (generate : List Int → Nat → Nat → List Int × Nat)
    (abs_pos gen : Nat) (inputs : List String) :
    ((∀ x, (encode x).isSome = true) → (∀ t, (decode t).isSome = true) →
      (replLoop training args verbosity encode decode generate abs_pos gen
        inputs).2 ≠ TermReason.fatalAbort) ∧
    (∀ (st : StreamState) (token : Int),
      st.prompt_size ≤ st.current_pos + 1 → token ≠ EOS_ID →
      decode token = none →
      stream_token args verbosity decode st token = none) ∧
    (∀ s, encode (templatePrompt training abs_pos s) = none →
      buildPrompt training abs_pos encode s = none) ∧
    (∀ (line : String) (rest : List String),
      abs_pos < args.max_tokens → ¬(line = "%q" ∨ line = "%Q") →
      ¬(line = "%c" ∨ line = "%C") →
      runTurn training args verbosity encode decode generate abs_pos gen line
        = none →
      (replLoop training args verbosity encode decode generate abs_pos gen
        (line :: rest)).2 = TermReason.fatalAbort) := by
  refine ⟨fun henc hdec => replLoop_no_abort training args verbosity encode
      decode generate henc hdec inputs abs_pos gen, ?_, ?_, ?_⟩
  · intro st token h hne hd
    unfold stream_token
    rw [if_neg (Nat.not_lt.mpr h), if_neg hne, hd]
  · intro s he
    unfold buildPrompt
    rw [he]
  · intro line rest hb hq hc hr
    unfold replLoop
    rw [if_pos hb, if_neg hq, if_neg hc, hr]

/-- Witness for `C9_tokenizer_failure_fatal`: with the total tokenizer
`enc0`/`dec0` a session does not abort; a failing decode aborts the
callback; a failing encode aborts the prompt build; and a session whose
decoder fails mid-turn ends with `fatalAbort`. -/
theorem C9_tokenizer_failure_fatal_witness :
    (replLoop ModelTraining.GEMMA_PT argsA 0 enc0 dec0 genEcho 0 0 ["a"]).2
        ≠ TermReason.fatalAbort ∧
    stream_token argsA 0 decNone
        { abs_pos := 0, current_pos := 2, prompt_size := 2, gen := 0 } 100
      = none ∧
    buildPrompt ModelTraining.GEMMA_PT 0 encNone "a" = none ∧
    (replLoop ModelTraining.GEMMA_PT argsA 0 enc0 decNone genEcho 0 0
        ["a", "b"]).2 = TermReason.fatalAbort :=
  ⟨(C9_tokenizer_failure_fatal ModelTraining.GEMMA_PT argsA 0 enc0 dec0
      genEcho 0 0 ["a"]).1 (fun _ => rfl) (fun _ => rfl),
   (C9_tokenizer_failure_fatal ModelTraining.GEMMA_PT argsA 0 enc0 decNone
      genEcho 0 0 ["a"]).2.1
      { abs_pos := 0, current_pos := 2, prompt_size := 2, gen := 0 } 100
      (by decide) (by decide) rfl,
   (C9_tokenizer_failure_fatal ModelTraining.GEMMA_PT argsA 0 encNone dec0
      genEcho 0 0 ["a"]).2.2.1 "a" rfl,
   (C9_tokenizer_failure_fatal ModelTraining.GEMMA_PT argsA 0 enc0 decNone
      genEcho 0 0 ["a", "b"]).2.2.2 "a" ["b"] (by decide) (by decide)
      (by decide) rfl⟩

/-! ## Claim C10 -/

/-- The callback never changes the `prompt_size` snapshot. -/
theorem stream_token_keeps_prompt_size (args : InferenceArgs)
    (verbosity : Nat) (decode : Int → Option String) (st : StreamState)
    (token : Int) (st2 : StreamState) (evs : List Ev)
    (h : stream_token args verbosity decode st token = some (st2, evs)) :
    st2.prompt_size = st.prompt_size := by
  unfold stream_token at h
  by_cases h1 : st.current_pos + 1 < st.prompt_size
  · rw [if_pos h1] at h
    simp only [Option.some.injEq, Prod.mk.injEq] at h
    obtain ⟨h2, -⟩ := h
    subst h2
    rfl
  · rw [if_neg h1] at h
    split at h
    · simp only [Option.some.injEq, Prod.mk.injEq] at h
      obtain ⟨h2, -⟩ := h
      subst h2
      split <;> rfl
    · split at h
      · simp at h
      · split at h
        · simp only [Option.some.injEq, Prod.mk.injEq] at h
          obtain ⟨h2, -⟩ := h
          subst h2
          rfl
        · simp only [Option.some.injEq, Prod.mk.injEq] at h
          obtain ⟨h2, -⟩ := h
          subst h2
          rfl

/-- The callback fold never changes the `prompt_size` snapshot. -/
theorem streamTokens_keeps_prompt_size (args : InferenceArgs)
    (verbosity : Nat) (decode : Int → Option String) :
    ∀ (tokens : List Int) (st st2 : StreamState) (evs : List Ev),
      streamTokens args verbosity decode st tokens = some (st2, evs) →
      st2.prompt_size = st.prompt_size := by
  intro tokens
  induction tokens with
  | nil =>
    intro st st2 evs h
    simp only [streamTokens, Option.some.injEq, Prod.mk.injEq] at h
    obtain ⟨h1, -⟩ := h
    subst h1
    rfl
  | cons t ts ih =>
    intro st st2 evs h
    unfold streamTokens at h
    cases hs : stream_token args verbosity decode st t with
    | none =>
      simp only [hs] at h
      exact Option.noConfusion h
    | some p =>
      obtain ⟨st1, evs1⟩ := p
      cases hs2 : streamTokens args verbosity decode st1 ts with
      | none =>
        simp only [hs, hs2] at h
        exact Option.noConfusion h
      | some q =>
        obtain ⟨stq, evsq⟩ := q
        simp only [hs, hs2, Option.some.injEq, Prod.mk.injEq] at h
        obtain ⟨h1, -⟩ := h
        subst h1
        rw [ih st1 stq evsq hs2,
          stream_token_keeps_prompt_size args verbosity decode st t st1 evs1
            hs]

/-- Claim C10: `prompt_size` is snapshotted only after the conditional BOS
insertion, so a turn starting with `abs_pos == 0` whose templated text
encodes to `l` builds the prompt `2 :: l` and runs the whole turn — hence
the prefill/echo boundary inside the streaming callback — with
`prompt_size = l.length + 1`: the inserted BOS token counts as part of the
prompt. -/
theorem C10_prompt_size_counts_bos (training : ModelTraining)
    (args : InferenceArgs) (verbosity : Nat)
    (encode : String → Option (List Int)) (decode : Int → Option String)
    (generate : List Int → Nat → Nat → List Int × Nat)
    (gen : Nat) (s : String) (l : List Int) (out : TurnOut)
    (he : encode (templatePrompt training 0 s) = some l)
    (hr : runTurn training args verbosity encode decode generate 0 gen s
      = some out) :
    buildPrompt training 0 encode s = some (2 :: l) ∧
    out.prompt_size = l.length + 1 := by
  have hbp : buildPrompt training 0 encode s = some (2 :: l) := by
    unfold buildPrompt
    rw [he]
    simp
  refine ⟨hbp, ?_⟩
  unfold runTurn at hr
  simp only [hbp] at hr
  cases hss : streamTokens args verbosity decode
      { abs_pos := 0, current_pos := 0, prompt_size := (2 :: l).length,
        gen := (generate (2 :: l) 0 gen).2 } (generate (2 :: l) 0 gen).1 with
  | none =>
    simp only [hss] at hr
    exact Option.noConfusion hr
  | some p =>
    obtain ⟨st, evs⟩ := p
    simp only [hss, Option.some.injEq] at hr
    subst hr
    have hps := streamTokens_keeps_prompt_size args verbosity decode
      (generate (2 :: l) 0 gen).1
      { abs_pos := 0, current_pos := 0, prompt_size := (2 :: l).length,
        gen := (generate (2 :: l) 0 gen).2 } st evs hss
    simpa using hps

/-- Witness for `C10_prompt_size_counts_bos`: the turn on input `"a"`
(encoded to the single token 100) runs with `prompt_size = 2 = 1 + 1`. -/
theorem C10_prompt_size_counts_bos_witness :
    buildPrompt ModelTraining.GEMMA_PT 0 enc0 "a" = some [2, 100] ∧
    TurnOut.prompt_size
        { abs_pos := 0, gen := 0, current_pos := 3, prompt_size := 2,
          evs := [Ev.readingPrompt, Ev.genCall [2, 100] 0, Ev.dot,
            Ev.text "x", Ev.turnSep] }
      = [(100 : Int)].length + 1 :=
  C10_prompt_size_counts_bos ModelTraining.GEMMA_PT argsA 0 enc0 dec0 genEcho
    0 "a" [100]
    { abs_pos := 0, gen := 0, current_pos := 3, prompt_size := 2,
      evs := [Ev.readingPrompt, Ev.genCall [2, 100] 0, Ev.dot, Ev.text "x",
        Ev.turnSep] }
    rfl rfl

end Gcpp
